import Mathlib

/-!
Verification of the torch_kalman state-space orchestrator (kalman_filter/base.py)
and the process behaviours pinned down by tests/test_process.py.

Matrices are embedded as lists of rows over ℚ; a batched tensor of matrices is a
list of matrices, one per group. Python exceptions are embedded with `Except`:
a raised exception is an `Except.error` carrying the exception class (and message).
The filter's `family` (the StateBelief class implementing predict /
update_from_input / compute_measurement, in the state_belief module) is a
parameter of the orchestrator, exactly as in `KalmanFilter.family`.
-/

namespace TorchKalman

/-- A matrix: list of rows of rationals. -/
abbrev Mat := List (List ℚ)

/-- Dot product of two rows. -/
def dot : List ℚ → List ℚ → ℚ
  | a :: as, b :: bs => a * b + dot as bs
  | _, _ => 0

/-- Column j of a matrix. -/
def col (b : Mat) (j : Nat) : List ℚ :=
  b.map (fun r => r.getD j 0)

/-- Matrix product (torch.mm / torch.matmul on 2-D operands). -/
def matMul (a b : Mat) : Mat :=
  a.map fun row => (List.range (b.headD []).length).map fun j => dot row (col b j)

/-- Python exception classes raised by the embedded code. -/
inductive PyError where
  | valueError (msg : String)
  | notImplementedError
  | assertionError
  | attributeError
  | numericalError (msg : String)
deriving Repr, DecidableEq

/-- The input tensor: groups × timesteps × measures, a missing (nan) entry is
`none`. -/
abbrev Input := List (List (List (Option ℚ)))

/-- Shape of the input tensor, as `family.get_input_dim` reads it:
(num_groups, num_timesteps, num_measures). -/
def getInputDim (input : Input) : Nat × Nat × Nat :=
  (input.length, (input.headD []).length, ((input.headD []).headD []).length)

/-- DesignForBatch: per-call materialization of a Design for a concrete batch,
with per-timestep batched accessors F, H, Q, R (one matrix per group) and an
initial mean (num_groups × state_size) and covariance for t = 0. -/
structure DesignForBatch where
  num_groups : Nat
  num_timesteps : Nat
  F : Nat → List Mat
  H : Nat → List Mat
  Q : Nat → List Mat
  R : Nat → List Mat
  initial_mean : Mat
  initial_covariance : List Mat

/-- Progress argument of forward/forecast: False, True (tqdm), or a
caller-supplied tqdm-like sink. -/
inductive Progress where
  | off
  | bar
  | sink (tag : Nat)
deriving Repr, DecidableEq

/-- Modelled from the spec: progress reporting (tqdm / a caller-supplied sink,
code not under src/) wraps an iterable and yields exactly its elements — it is
purely observational and must not alter results. -/
def Progress.wrap : Progress → List Nat → List Nat
  | _, l => l

/-- The StateBelief family interface used by the orchestrator: the constructor
and the operations `predict`, `update_from_input`, `compute_measurement` that
base.py invokes on beliefs, plus the batch-size accessor and the
simulation-side operations. The implementations live in the state_belief
module; the orchestrator treats them as opaque, so they are parameters here. -/
structure FilterFamily (β : Type) where
  mk_belief : Mat → List Mat → List Int → β
  predict : β → List Mat → List Mat → β
  update_from_input : β → Input → Nat → β
  compute_measurement : β → List Mat → List Mat → β
  num_groups : β → Nat
  repeat_belief : β → Nat → β
  simulate_trajectories : β → DesignForBatch → Progress → Nat → Option Mat → Except PyError β
  sample_measurements : β → Option Mat → Mat

/-- The KalmanFilter as the orchestrator sees it: a belief family, the design's
measure count, and `design_for_batch` (delegating to Design.for_batch, which
may itself raise, e.g. for a missing required batch covariate). -/
structure KalmanFilter (β : Type) where
  family : FilterFamily β
  measure_size : Nat
  design_for_batch : Nat → Nat → Except PyError DesignForBatch

/-- predict_initial_state: the belief built from the DesignForBatch's initial
mean and covariance with last_measured = ones(num_groups) — a one-step-ahead
prediction, last measured one step ago. -/
def KalmanFilter.predict_initial_state {β : Type} (kf : KalmanFilter β)
    (dfb : DesignForBatch) : β :=
  kf.family.mk_belief dfb.initial_mean dfb.initial_covariance
    (List.replicate dfb.num_groups 1)

/-- The ValueError message raised by forward on a measure-dimension mismatch. -/
def mismatchMsg (measure_size num_groups num_timesteps num_measures : Nat) : String :=
  "This KalmanFilter has " ++ toString measure_size ++
    " measurement-dimensions; but the input shape is (" ++ toString num_groups ++
    ", " ++ toString num_timesteps ++ ", " ++ toString num_measures ++
    ") (3rd dim should == measure-size)."

/-- One iteration of forward's loop: for t > 0 correct the carried belief with
the input at t-1 and predict with F(t-1), Q(t-1); then compute the measurement
with H(t), R(t); append the result and carry it. -/
def forwardStep {β : Type} (fam : FilterFamily β) (dfb : DesignForBatch)
    (input : Input) (acc : List β × β) (t : Nat) : List β × β :=
  let sp :=
    if t > 0 then
      fam.predict (fam.update_from_input acc.2 input (t - 1)) (dfb.F (t - 1)) (dfb.Q (t - 1))
    else acc.2
  let sp := fam.compute_measurement sp (dfb.H t) (dfb.R t)
  (acc.1 ++ [sp], sp)

/-- KalmanFilter.forward: validate the measure dimension, build the
DesignForBatch, pick the initial belief, then run the one-step-ahead loop over
(possibly progress-wrapped) range(num_timesteps). -/
def KalmanFilter.forward {β : Type} (kf : KalmanFilter β) (input : Input)
    (initial_state : Option β) (progress : Progress) : Except PyError (List β) :=
  if (getInputDim input).2.2 ≠ kf.measure_size then
    .error (.valueError (mismatchMsg kf.measure_size (getInputDim input).1
      (getInputDim input).2.1 (getInputDim input).2.2))
  else
    match kf.design_for_batch (getInputDim input).1 (getInputDim input).2.1 with
    | .error e => .error e
    | .ok dfb =>
      let state_prediction :=
        match initial_state with
        | none => kf.predict_initial_state dfb
        | some s => s
      .ok ((progress.wrap (List.range (getInputDim input).2.1)).foldl
        (forwardStep kf.family dfb input) ([], state_prediction)).1

/-- KalmanFilter.smooth: raise NotImplementedError. -/
def KalmanFilter.smooth {β : Type} (_kf : KalmanFilter β) (_states : List β) :
    Except PyError (List β) :=
  .error .notImplementedError

/-- StateBeliefOverTime as the orchestrator consumes it: modelled from the spec
(the over_time module is not under src/): an ordered sequence of StateBeliefs
with `last_prediction` (the last belief of the sequence) and
`state_belief_for_time` (group-wise absolute-time lookup by per-group times). -/
structure StateBeliefOverTime (β : Type) where
  state_beliefs : List β
  last_prediction : β
  state_belief_for_time : List Nat → β

/-- The `states` argument of forecast/simulate: a single StateBelief or a
StateBeliefOverTime. -/
inductive States (β : Type) where
  | single (b : β)
  | overTime (s : StateBeliefOverTime β)

/-- The forecast-from selection at the top of forecast/simulate: with no
from_times, a single belief is used as-is and an over-time sequence yields its
last prediction; with from_times, the per-group belief is selected by
state_belief_for_time (a single belief has no such method: AttributeError,
encoded as `none`). -/
def selectInitial {β : Type} (states : States β) (from_times : Option (List Nat)) :
    Option β :=
  match from_times with
  | none =>
    match states with
    | .single b => some b
    | .overTime s => some s.last_prediction
  | some ts =>
    match states with
    | .single _ => none
    | .overTime s => some (s.state_belief_for_time ts)

/-- One iteration of forecast's loop: for t > 0 predict the carried belief with
F(t-1), Q(t-1) (no correction step); then compute the measurement with H(t),
R(t); append the result and carry it. -/
def forecastStep {β : Type} (fam : FilterFamily β) (dfb : DesignForBatch)
    (acc : List β × β) (t : Nat) : List β × β :=
  let sp :=
    if t > 0 then
      fam.predict acc.2 (dfb.F (t - 1)) (dfb.Q (t - 1))
    else acc.2
  let sp := fam.compute_measurement sp (dfb.H t) (dfb.R t)
  (acc.1 ++ [sp], sp)

/-- KalmanFilter.forecast: assert horizon > 0, select the forecast-from belief,
build a DesignForBatch of length horizon, then run the prediction-only loop. -/
def KalmanFilter.forecast {β : Type} (kf : KalmanFilter β) (states : States β)
    (horizon : Int) (from_times : Option (List Nat)) (progress : Progress) :
    Except PyError (List β) :=
  if horizon ≤ 0 then .error .assertionError
  else
    match selectInitial states from_times with
    | none => .error .attributeError
    | some state_prediction =>
      match kf.design_for_batch (kf.family.num_groups state_prediction) horizon.toNat with
      | .error e => .error e
      | .ok dfb =>
        .ok ((progress.wrap (List.range dfb.num_timesteps)).foldl
          (forecastStep kf.family dfb) ([], state_prediction)).1

/-- torch.chunk along the first axis: split into n chunks of size
ceil(len / n). -/
def chunk (m : Mat) (n : Nat) : List Mat :=
  if n = 0 then []
  else (List.range n).map fun i =>
    let sz := (m.length + n - 1) / n
    (m.drop (i * sz)).take sz

/-- KalmanFilter.simulate: assert horizon > 0, select the forecast-from belief,
replicate it num_iter times along the batch axis, build a DesignForBatch of
length horizon, draw stochastic trajectories, turn them into measurements
(sampling measurement noise, or a caller-supplied deterministic mapping), and
chunk the result back into num_iter pieces. -/
def KalmanFilter.simulate {β : Type} (kf : KalmanFilter β) (states : States β)
    (horizon : Int) (num_iter : Nat) (progress : Progress)
    (from_times : Option (List Nat)) (state_to_measured : Option (β → Mat))
    (white_noise : Option (Mat × Mat)) (ntry_diag_incr : Nat) :
    Except PyError (List Mat) :=
  if horizon ≤ 0 then .error .assertionError
  else
    match selectInitial states from_times with
    | none => .error .attributeError
    | some initial_state =>
      let initial_state := kf.family.repeat_belief initial_state num_iter
      match kf.design_for_batch (kf.family.num_groups initial_state) horizon.toNat with
      | .error e => .error e
      | .ok dfb =>
        let wn : Option Mat × Option Mat :=
          match white_noise with
          | none => (none, none)
          | some (p, m) => (some p, some m)
        match kf.family.simulate_trajectories initial_state dfb progress ntry_diag_incr wn.1 with
        | .error e => .error e
        | .ok trajectories =>
          let sim :=
            match state_to_measured with
            | none => kf.family.sample_measurements trajectories wn.2
            | some f => f trajectories
          .ok (chunk sim num_iter)

/-- A process's per-batch materialization: batched transition and measurement
accessors, as the tests consume them. -/
structure ProcessBatch where
  num_groups : Nat
  num_timesteps : Nat
  F : Nat → List Mat
  H : Nat → List Mat

/-- Modelled from the spec: the discrete Season process (the process module is
not under src/): state size = seasonal_period, calendar-anchored via
season_start (a date string) and dt_unit; if season_start is supplied,
`for_batch` requires per-group start_datetimes. -/
structure Season where
  id : String
  seasonal_period : Nat
  season_duration : Nat
  season_start : Option String
  dt_unit : String

/-- Modelled from the spec: the discrete-season transition for duration 1 — a
circular shift by one position with the first component enforced to be the
negative sum of the others (zero-sum seasonal effect): row 0 is -1 on columns
0..P-2 and 0 on the last, row i (i ≥ 1) selects component i-1. -/
def seasonF (P : Nat) : Mat :=
  (List.range P).map fun i =>
    if i = 0 then (List.range P).map fun j => if j + 1 < P then (-1 : ℚ) else 0
    else (List.range P).map fun j => if j + 1 = i then (1 : ℚ) else 0

/-- Modelled from the spec: the discrete-season measurement row selects exactly
the first state component. -/
def seasonH (P : Nat) : Mat :=
  [(List.range P).map fun j => if j = 0 then (1 : ℚ) else 0]

/-- Modelled from the spec: Season.for_batch validates the required batch
covariate first — a calendar-anchored season (season_start supplied) called
without start_datetimes raises ValueError naming the process id, before any
F/H/Q/R matrix is computed; otherwise it materializes the batched season
matrices. -/
def Season.for_batch (s : Season) (num_groups num_timesteps : Nat)
    (start_datetimes : Option (List Nat)) : Except PyError ProcessBatch :=
  if s.season_start.isSome ∧ start_datetimes.isNone then
    .error (.valueError
      ("Must pass `start_datetimes` to process `" ++ s.id ++ "`."))
  else
    .ok { num_groups := num_groups
          num_timesteps := num_timesteps
          F := fun _ => List.replicate num_groups (seasonF s.seasonal_period)
          H := fun _ => List.replicate num_groups (seasonH s.seasonal_period) }

/-- Modelled from the spec: a bounded decay parameter (decay factor bounds):
a raw parameter theta squashed into the open unit interval and scaled into
(low, high), so the realized value always lies strictly inside the configured
bounds; `get_value` returns the realized value. -/
structure DecayedTransition where
  low : ℚ
  high : ℚ
  theta : ℚ

/-- The squashing map into the open interval (0, 1). -/
def squash (θ : ℚ) : ℚ := (1 + θ / (1 + |θ|)) / 2

/-- The realized decay value: low + (high - low) · squash(theta). -/
def DecayedTransition.get_value (d : DecayedTransition) : ℚ :=
  d.low + (d.high - d.low) * squash d.theta

/-- Modelled from the spec: the LocalTrend process (the process module is not
under src/): state = [level, velocity]; decay_velocity is either absent (False:
no damping) or a bounded decay parameter. -/
structure LocalTrend where
  id : String
  decay_velocity : Option DecayedTransition

/-- Modelled from the spec: LocalTrend's transition block is
F = [[1, 1], [0, decay]] with decay = 1 when no decay is configured, else the
stored decay value; H contributes 1 to the level, 0 to the velocity. -/
def LocalTrend.for_batch (lt : LocalTrend) (num_groups num_timesteps : Nat) :
    ProcessBatch :=
  let decay : ℚ :=
    match lt.decay_velocity with
    | none => 1
    | some d => d.get_value
  { num_groups := num_groups
    num_timesteps := num_timesteps
    F := fun _ => List.replicate num_groups [[1, 1], [0, decay]]
    H := fun _ => List.replicate num_groups [[1, 0]] }

/-- The one-step-ahead prediction recursion that forward's loop implements:
the belief emitted at t = 0 is the initial belief with its measurement computed
from H(0), R(0); the belief emitted at t+1 corrects the belief emitted at t
with the input at time t (update_from_input), predicts forward with F(t), Q(t),
and computes the measurement with H(t+1), R(t+1). -/
def oneStepAhead {β : Type} (fam : FilterFamily β) (dfb : DesignForBatch)
    (input : Input) (b0 : β) : Nat → β
  | 0 => fam.compute_measurement b0 (dfb.H 0) (dfb.R 0)
  | t + 1 =>
    fam.compute_measurement
      (fam.predict (fam.update_from_input (oneStepAhead fam dfb input b0 t) input t)
        (dfb.F t) (dfb.Q t))
      (dfb.H (t + 1)) (dfb.R (t + 1))

/-- The prediction-only recursion that forecast's loop implements: the belief
at t = 0 is the supplied prior with its measurement computed from H(0), R(0);
the belief at t+1 predicts the belief at t forward with F(t), Q(t) — never
calling update_from_input — and computes the measurement with H(t+1), R(t+1). -/
def forecastBelief {β : Type} (fam : FilterFamily β) (dfb : DesignForBatch)
    (b0 : β) : Nat → β
  | 0 => fam.compute_measurement b0 (dfb.H 0) (dfb.R 0)
  | t + 1 =>
    fam.compute_measurement
      (fam.predict (forecastBelief fam dfb b0 t) (dfb.F t) (dfb.Q t))
      (dfb.H (t + 1)) (dfb.R (t + 1))

/-- The belief carried by forward's loop after n iterations. -/
def forwardCarry {β : Type} (fam : FilterFamily β) (dfb : DesignForBatch)
    (input : Input) (b0 : β) : Nat → β
  | 0 => b0
  | n + 1 => oneStepAhead fam dfb input b0 n

/-- The belief carried by forecast's loop after n iterations. -/
def forecastCarry {β : Type} (fam : FilterFamily β) (dfb : DesignForBatch)
    (b0 : β) : Nat → β
  | 0 => b0
  | n + 1 => forecastBelief fam dfb b0 n

theorem forwardStep_foldl {β : Type} (fam : FilterFamily β) (dfb : DesignForBatch)
    (input : Input) (b0 : β) (n : Nat) :
    (List.range n).foldl (forwardStep fam dfb input) ([], b0)
      = ((List.range n).map (oneStepAhead fam dfb input b0),
         forwardCarry fam dfb input b0 n) := by
  induction n with
  | zero => simp [forwardCarry]
  | succ k ih =>
    rw [List.range_succ, List.foldl_append, ih, List.map_append, List.foldl_cons,
      List.foldl_nil]
    rcases k with _ | k
    · simp [forwardStep, forwardCarry, oneStepAhead]
    · simp [forwardStep, forwardCarry, oneStepAhead]

theorem forecastStep_foldl {β : Type} (fam : FilterFamily β) (dfb : DesignForBatch)
    (b0 : β) (n : Nat) :
    (List.range n).foldl (forecastStep fam dfb) ([], b0)
      = ((List.range n).map (forecastBelief fam dfb b0),
         forecastCarry fam dfb b0 n) := by
  induction n with
  | zero => simp [forecastCarry]
  | succ k ih =>
    rw [List.range_succ, List.foldl_append, ih, List.map_append, List.foldl_cons,
      List.foldl_nil]
    rcases k with _ | k
    · simp [forecastStep, forecastCarry, forecastBelief]
    · simp [forecastStep, forecastCarry, forecastBelief]

/-- A concrete belief family used for evaluating the orchestrator theorems on
concrete inputs: a belief is the trace of the family operations that produced
it, so each operation is recorded exactly as called. -/
inductive TraceBelief where
  | init (means : Mat) (covs : List Mat) (last_measured : List Int)
  | predicted (prev : TraceBelief) (F Q : List Mat)
  | updated (prev : TraceBelief) (input : Input) (time : Nat)
  | measured (prev : TraceBelief) (H R : List Mat)
  | repeated (prev : TraceBelief) (num_iter : Nat)
deriving Repr, DecidableEq

/-- The batch size of a trace belief: the length of the last_measured vector at
the root, multiplied along batch-axis replications. -/
def TraceBelief.groups : TraceBelief → Nat
  | .init _ _ l => l.length
  | .predicted p _ _ => p.groups
  | .updated p _ _ => p.groups
  | .measured p _ _ => p.groups
  | .repeated p n => n * p.groups

/-- The trace instantiation of the family interface. -/
def traceFamily : FilterFamily TraceBelief where
  mk_belief := .init
  predict := .predicted
  update_from_input := .updated
  compute_measurement := .measured
  num_groups := TraceBelief.groups
  repeat_belief := .repeated
  simulate_trajectories := fun b _ _ _ _ => .ok b
  sample_measurements := fun _ _ => []

/-- A concrete single-group, single-measure DesignForBatch for evaluation. -/
def dfbTest : DesignForBatch where
  num_groups := 1
  num_timesteps := 2
  F := fun _ => [[[1, 1], [0, 1]]]
  H := fun _ => [[[1, 0]]]
  Q := fun _ => [[[0, 0], [0, 0]]]
  R := fun _ => [[[1]]]
  initial_mean := [[0, 0]]
  initial_covariance := [[[1, 0], [0, 1]]]

/-- A concrete KalmanFilter over the trace family, one measure. -/
def kfTest : KalmanFilter TraceBelief where
  family := traceFamily
  measure_size := 1
  design_for_batch := fun _ _ => .ok dfbTest

/-- A concrete input of shape (1, 2, 1). -/
def inputTest : Input := [[[some 1], [some 2]]]

/-- A concrete input of shape (1, 1, 2): wrong measure dimension for kfTest. -/
def inputBad : Input := [[[some 1, some 2]]]

theorem Progress.wrap_eq (p : Progress) (l : List Nat) : p.wrap l = l := rfl

/-- Claim C1: for every input of shape (num_groups, num_timesteps, num_measures)
with num_measures equal to the design's measure count, forward returns exactly
num_timesteps one-step-ahead predictions: the belief emitted at t = 0 is the
initial belief with its measurement computed from H(0), R(0), and for t > 0 the
emitted belief corrects the belief at t-1 with the input at time t-1 via
update_from_input, predicts forward with F(t-1), Q(t-1), and computes the
measurement with H(t), R(t) — as `oneStepAhead` states; no same-timestep
filtered (post-update) estimate is ever emitted. -/
theorem forward_one_step_ahead {β : Type} (kf : KalmanFilter β) (input : Input)
    (g T m : Nat) (dfb : DesignForBatch) (init : Option β) (prog : Progress)
    (hdim : getInputDim input = (g, T, m)) (hm : m = kf.measure_size)
    (hdfb : kf.design_for_batch g T = .ok dfb) :
    kf.forward input init prog
      = .ok ((List.range T).map (oneStepAhead kf.family dfb input
          (init.getD (kf.predict_initial_state dfb))))
    ∧ ((List.range T).map (oneStepAhead kf.family dfb input
          (init.getD (kf.predict_initial_state dfb)))).length = T := by
  refine ⟨?_, by simp⟩
  unfold KalmanFilter.forward
  rw [hdim]
  rw [if_neg (by simp [hm])]
  simp only [hdfb, Progress.wrap_eq, forwardStep_foldl]
  cases init <;> rfl

/-- Claim C2: for every input whose measure dimension differs from the Design's
measure count, forward raises a ValueError whose message names both the
expected measurement-dimension count and the actual input shape; the error is
raised before the DesignForBatch is constructed (the result is the same for
every design_for_batch, including a failing one) and no beliefs are produced. -/
theorem forward_dim_mismatch {β : Type} (kf : KalmanFilter β) (input : Input)
    (g T m : Nat) (init : Option β) (prog : Progress)
    (hdim : getInputDim input = (g, T, m)) (hm : m ≠ kf.measure_size) :
    kf.forward input init prog
      = .error (.valueError (mismatchMsg kf.measure_size g T m))
    ∧ mismatchMsg kf.measure_size g T m
      = "This KalmanFilter has " ++ toString kf.measure_size ++
          " measurement-dimensions; but the input shape is (" ++ toString g ++
          ", " ++ toString T ++ ", " ++ toString m ++
          ") (3rd dim should == measure-size)."
    ∧ ∀ out : List β, kf.forward input init prog ≠ .ok out := by
  have h : kf.forward input init prog
      = .error (.valueError (mismatchMsg kf.measure_size g T m)) := by
    unfold KalmanFilter.forward
    rw [hdim]
    simp [hm]
  exact ⟨h, rfl, fun out hout => by rw [h] at hout; exact Except.noConfusion hout⟩

/-- Claim C4: smooth always fails with NotImplementedError, for every argument;
this signal is distinct from the ValueError (configuration) and numerical
degeneracy error classes, and smooth never returns a result. -/
theorem smooth_not_implemented {β : Type} (kf : KalmanFilter β) (states : List β) :
    kf.smooth states = .error .notImplementedError
    ∧ (∀ out : List β, kf.smooth states ≠ .ok out)
    ∧ (∀ msg, (PyError.notImplementedError : PyError) ≠ .valueError msg)
    ∧ (∀ msg, (PyError.notImplementedError : PyError) ≠ .numericalError msg) := by
  refine ⟨rfl, fun out hout => Except.noConfusion hout, ?_, ?_⟩ <;>
    intro msg h <;> exact PyError.noConfusion h

/-- Claim C5: when forward is called with initial_state = None, the t = 0
belief is built by predict_initial_state from the DesignForBatch's initial mean
and covariance with last_measured = 1 for every one of the num_groups groups,
and the first emitted belief is that belief with its measurement computed from
H(0), R(0). -/
theorem forward_initial_belief {β : Type} (kf : KalmanFilter β) (input : Input)
    (g T m : Nat) (dfb : DesignForBatch) (prog : Progress)
    (hdim : getInputDim input = (g, T, m)) (hm : m = kf.measure_size)
    (hdfb : kf.design_for_batch g T = .ok dfb) (hT : 0 < T) :
    kf.predict_initial_state dfb
      = kf.family.mk_belief dfb.initial_mean dfb.initial_covariance
          (List.replicate dfb.num_groups 1)
    ∧ kf.forward input none prog
      = .ok ((List.range T).map (oneStepAhead kf.family dfb input
          (kf.predict_initial_state dfb)))
    ∧ ((List.range T).map (oneStepAhead kf.family dfb input
          (kf.predict_initial_state dfb))).head?
      = some (kf.family.compute_measurement
          (kf.family.mk_belief dfb.initial_mean dfb.initial_covariance
            (List.replicate dfb.num_groups 1))
          (dfb.H 0) (dfb.R 0)) := by
  refine ⟨rfl, ?_, ?_⟩
  · unfold KalmanFilter.forward
    rw [hdim]
    rw [if_neg (by simp [hm])]
    simp only [hdfb, Progress.wrap_eq, forwardStep_foldl]
  · rcases T with _ | k
    · exact absurd hT (by simp)
    · simp [List.range_succ_eq_map, oneStepAhead, KalmanFilter.predict_initial_state]

/-- Claim C6: the results of forward and forecast are identical whether the
progress argument is False, True (tqdm), or any caller-supplied sink —
progress reporting is purely observational and never alters the computed
beliefs. -/
theorem progress_observational {β : Type} (kf : KalmanFilter β) (input : Input)
    (init : Option β) (states : States β) (horizon : Int)
    (from_times : Option (List Nat)) (p q : Progress) :
    kf.forward input init p = kf.forward input init q
    ∧ kf.forecast states horizon from_times p
      = kf.forecast states horizon from_times q :=
  ⟨rfl, rfl⟩

/-- Claim C10: forecast and simulate both assert a strictly positive horizon:
for every horizon ≤ 0 each fails with an AssertionError, before selecting an
initial state or building a DesignForBatch (the result is the same for every
states argument and every design_for_batch, including failing ones). -/
theorem positive_horizon_assert {β : Type} (kf : KalmanFilter β) (states : States β)
    (horizon : Int) (num_iter : Nat) (prog : Progress)
    (from_times : Option (List Nat)) (state_to_measured : Option (β → Mat))
    (white_noise : Option (Mat × Mat)) (ntry_diag_incr : Nat)
    (h : horizon ≤ 0) :
    kf.forecast states horizon from_times prog = .error .assertionError
    ∧ kf.simulate states horizon num_iter prog from_times state_to_measured
        white_noise ntry_diag_incr = .error .assertionError := by
  constructor
  · unfold KalmanFilter.forecast
    rw [if_pos h]
  · unfold KalmanFilter.simulate
    rw [if_pos h]

/-- Claim C3: forecast performs the same prediction chain as filtering but
never calls update_from_input: the t = 0 belief is taken directly from the
supplied prior as `selectInitial` selects it (the belief itself for a single
StateBelief, the last prediction for a StateBeliefOverTime with from_times
absent, the per-group belief selected by state_belief_for_time otherwise), and
for every t > 0 the belief is obtained solely by predict with F(t-1), Q(t-1)
followed by compute_measurement with H(t), R(t) — as `forecastBelief` states,
which never mentions update_from_input. -/
theorem forecast_no_update {β : Type} (kf : KalmanFilter β) (states : States β)
    (horizon : Int) (from_times : Option (List Nat)) (prog : Progress)
    (b0 : β) (dfb : DesignForBatch)
    (hpos : ¬ horizon ≤ 0)
    (hsel : selectInitial states from_times = some b0)
    (hdfb : kf.design_for_batch (kf.family.num_groups b0) horizon.toNat = .ok dfb) :
    kf.forecast states horizon from_times prog
      = .ok ((List.range dfb.num_timesteps).map (forecastBelief kf.family dfb b0)) := by
  unfold KalmanFilter.forecast
  rw [if_neg hpos]
  simp only [hsel, hdfb, Progress.wrap_eq, forecastStep_foldl]

/-- Witness belief for the orchestrator claims. -/
def beliefTest : TraceBelief := .init [[0, 0]] [[[1, 0], [0, 1]]] [1]

theorem forward_one_step_ahead_witness :
    getInputDim inputTest = (1, 2, 1)
    ∧ 1 = kfTest.measure_size
    ∧ kfTest.design_for_batch 1 2 = .ok dfbTest
    ∧ kfTest.forward inputTest none .off
        = .ok ((List.range 2).map (oneStepAhead kfTest.family dfbTest inputTest
            ((none : Option TraceBelief).getD (kfTest.predict_initial_state dfbTest))))
    ∧ ((List.range 2).map (oneStepAhead kfTest.family dfbTest inputTest
        ((none : Option TraceBelief).getD (kfTest.predict_initial_state dfbTest)))).length
        = 2 :=
  ⟨rfl, rfl, rfl,
    (forward_one_step_ahead kfTest inputTest 1 2 1 dfbTest none .off rfl rfl rfl).1,
    (forward_one_step_ahead kfTest inputTest 1 2 1 dfbTest none .off rfl rfl rfl).2⟩

theorem forward_dim_mismatch_witness :
    getInputDim inputBad = (1, 1, 2)
    ∧ 2 ≠ kfTest.measure_size
    ∧ kfTest.forward inputBad none .off
        = .error (.valueError ("This KalmanFilter has 1 measurement-dimensions; " ++
            "but the input shape is (1, 1, 2) (3rd dim should == measure-size).")) := by
  refine ⟨rfl, by decide, ?_⟩
  have h := (forward_dim_mismatch kfTest inputBad 1 1 2 none .off rfl (by decide)).1
  have hs : mismatchMsg kfTest.measure_size 1 1 2
      = "This KalmanFilter has 1 measurement-dimensions; " ++
          "but the input shape is (1, 1, 2) (3rd dim should == measure-size)." := by
    decide
  rw [h, hs]

theorem forward_initial_belief_witness :
    getInputDim inputTest = (1, 2, 1)
    ∧ 0 < 2
    ∧ kfTest.forward inputTest none .off
        = .ok ((List.range 2).map (oneStepAhead kfTest.family dfbTest inputTest
            (kfTest.predict_initial_state dfbTest)))
    ∧ ((List.range 2).map (oneStepAhead kfTest.family dfbTest inputTest
        (kfTest.predict_initial_state dfbTest))).head?
        = some (kfTest.family.compute_measurement
            (kfTest.family.mk_belief dfbTest.initial_mean dfbTest.initial_covariance
              (List.replicate dfbTest.num_groups 1))
            (dfbTest.H 0) (dfbTest.R 0)) :=
  ⟨rfl, by decide,
    (forward_initial_belief kfTest inputTest 1 2 1 dfbTest .off rfl rfl rfl (by decide)).2.1,
    (forward_initial_belief kfTest inputTest 1 2 1 dfbTest .off rfl rfl rfl (by decide)).2.2⟩

theorem forecast_no_update_witness :
    ¬ (2 : Int) ≤ 0
    ∧ selectInitial (States.single beliefTest) none = some beliefTest
    ∧ kfTest.design_for_batch (kfTest.family.num_groups beliefTest) (2 : Int).toNat
        = .ok dfbTest
    ∧ kfTest.forecast (States.single beliefTest) 2 none .off
        = .ok ((List.range dfbTest.num_timesteps).map
            (forecastBelief kfTest.family dfbTest beliefTest)) :=
  ⟨by decide, rfl, rfl,
    forecast_no_update kfTest (States.single beliefTest) 2 none .off beliefTest dfbTest
      (by decide) rfl rfl⟩

theorem positive_horizon_assert_witness :
    (0 : Int) ≤ 0
    ∧ kfTest.forecast (States.single beliefTest) 0 none .off = .error .assertionError
    ∧ kfTest.simulate (States.single beliefTest) 0 3 .off none none none 1000
        = .error .assertionError :=
  ⟨le_refl 0,
    (positive_horizon_assert kfTest (States.single beliefTest) 0 3 .off none none none
      1000 (le_refl 0)).1,
    (positive_horizon_assert kfTest (States.single beliefTest) 0 3 .off none none none
      1000 (le_refl 0)).2⟩

theorem matMul_two_by_one (a b c d x y : ℚ) :
    matMul [[a, b], [c, d]] [[x], [y]] = [[a * x + b * y], [c * x + d * y]] := by
  simp [matMul, col, dot, List.range_succ]

theorem squash_pos (θ : ℚ) : 0 < squash θ := by
  have hd : (0 : ℚ) < 1 + |θ| := by positivity
  have hx : |θ / (1 + |θ|)| < 1 := by
    rw [abs_div, abs_of_pos hd]
    exact (div_lt_one hd).mpr (by linarith)
  have := abs_lt.mp hx
  unfold squash
  linarith [this.1]

theorem squash_lt_one (θ : ℚ) : squash θ < 1 := by
  have hd : (0 : ℚ) < 1 + |θ| := by positivity
  have hx : |θ / (1 + |θ|)| < 1 := by
    rw [abs_div, abs_of_pos hd]
    exact (div_lt_one hd).mpr (by linarith)
  have := abs_lt.mp hx
  unfold squash
  linarith [this.2]

/-- Claim C7: a calendar-anchored discrete Season process (season_start
supplied at construction) whose for_batch is called without the required
start_datetimes covariate fails with a ValueError naming the offending process
id, and the failure is the whole result: no F/H matrix accessor is ever
produced (the Except is an error, not a ProcessBatch). -/
theorem season_missing_start_datetimes (s : Season) (num_groups num_timesteps : Nat)
    (d : String) (h : s.season_start = some d) :
    s.for_batch num_groups num_timesteps none
      = .error (.valueError
          ("Must pass `start_datetimes` to process `" ++ s.id ++ "`."))
    ∧ ∀ pb : ProcessBatch, s.for_batch num_groups num_timesteps none ≠ .ok pb := by
  have he : s.for_batch num_groups num_timesteps none
      = .error (.valueError
          ("Must pass `start_datetimes` to process `" ++ s.id ++ "`.")) := by
    unfold Season.for_batch
    rw [if_pos (by simp [h])]
  exact ⟨he, fun pb hpb => by rw [he] at hpb; exact Except.noConfusion hpb⟩

/-- The Season built by the discrete-season test. -/
def seasonTest : Season :=
  { id := "day_of_week", seasonal_period := 7, season_duration := 1
    season_start := some "2018-01-01", dt_unit := "D" }

theorem season_missing_start_datetimes_witness :
    seasonTest.season_start = some "2018-01-01"
    ∧ seasonTest.for_batch 1 1 none
        = .error (.valueError "Must pass `start_datetimes` to process `day_of_week`.") := by
  refine ⟨rfl, ?_⟩
  have h := (season_missing_start_datetimes seasonTest 1 1 "2018-01-01" rfl).1
  have hs : "Must pass `start_datetimes` to process `" ++ seasonTest.id ++ "`."
      = "Must pass `start_datetimes` to process `day_of_week`." := by decide
  rw [h, hs]

/-- Claim C8: a LocalTrend process with no velocity decay has per-batch
transition matrix F(0) equal to [[1,1],[0,1]] for every group, and starting
from mean [1, -0.5], after i+1 applications of F the level equals
1 - 0.5·(i+1) and the velocity remains -0.5, for i = 0, 1, 2. -/
theorem localtrend_no_decay_transition (lt : LocalTrend) (ng nt : Nat)
    (h : lt.decay_velocity = none) (hng : 0 < ng) :
    (lt.for_batch ng nt).F 0 = List.replicate ng [[1, 1], [0, 1]]
    ∧ ((lt.for_batch ng nt).F 0).getD 0 [] = [[1, 1], [0, 1]]
    ∧ matMul [[1, 1], [0, 1]] [[1], [-(1/2)]]
        = [[1 - (1/2) * (0 + 1)], [-(1/2)]]
    ∧ matMul [[1, 1], [0, 1]] [[1 - (1/2) * (0 + 1)], [-(1/2)]]
        = [[1 - (1/2) * (1 + 1)], [-(1/2)]]
    ∧ matMul [[1, 1], [0, 1]] [[1 - (1/2) * (1 + 1)], [-(1/2)]]
        = [[1 - (1/2) * (2 + 1)], [-(1/2)]] := by
  refine ⟨by simp [LocalTrend.for_batch, h], ?_, ?_, ?_, ?_⟩
  · rcases ng with _ | k
    · exact absurd hng (by simp)
    · simp [LocalTrend.for_batch, h, List.replicate_succ]
  all_goals rw [matMul_two_by_one]; norm_num

/-- The no-decay LocalTrend built by the velocity test. -/
def ltTest : LocalTrend := { id := "test", decay_velocity := none }

theorem localtrend_no_decay_transition_witness :
    ltTest.decay_velocity = none
    ∧ 0 < 2
    ∧ (ltTest.for_batch 2 1).F 0 = List.replicate 2 [[1, 1], [0, 1]]
    ∧ ((ltTest.for_batch 2 1).F 0).getD 0 [] = [[1, 1], [0, 1]]
    ∧ matMul [[1, 1], [0, 1]] [[1], [-(1/2)]]
        = [[1 - (1/2) * (0 + 1)], [-(1/2)]] :=
  ⟨rfl, by decide,
    (localtrend_no_decay_transition ltTest 2 1 rfl (by decide)).1,
    (localtrend_no_decay_transition ltTest 2 1 rfl (by decide)).2.1,
    (localtrend_no_decay_transition ltTest 2 1 rfl (by decide)).2.2.1⟩

/-- Claim C9: for a LocalTrend with decay_velocity configured with bounds
(0.5, 1.0), the realized velocity transition scalar F(0)[1,1] equals the
process's own stored decay value and lies strictly between 0.5 and 1.0, and
starting from velocity 1.0, after i+1 propagations the velocity equals
decay^(i+1), for i = 0, 1, 2. -/
theorem localtrend_decay_bounds (lt : LocalTrend) (ng nt : Nat)
    (d : DecayedTransition) (h : lt.decay_velocity = some d)
    (hl : d.low = 1/2) (hh : d.high = 1) (hng : 0 < ng) :
    (lt.for_batch ng nt).F 0 = List.replicate ng [[1, 1], [0, d.get_value]]
    ∧ (((lt.for_batch ng nt).F 0).getD 0 []).getD 1 []
        = [0, d.get_value]
    ∧ 1/2 < d.get_value ∧ d.get_value < 1
    ∧ matMul [[1, 1], [0, d.get_value]] [[0], [1]]
        = [[1], [d.get_value ^ 1]]
    ∧ matMul [[1, 1], [0, d.get_value]] [[1], [d.get_value ^ 1]]
        = [[1 + d.get_value], [d.get_value ^ 2]]
    ∧ matMul [[1, 1], [0, d.get_value]] [[1 + d.get_value], [d.get_value ^ 2]]
        = [[1 + d.get_value + d.get_value ^ 2], [d.get_value ^ 3]] := by
  have hv0 : 0 < squash d.theta := squash_pos d.theta
  have hv1 : squash d.theta < 1 := squash_lt_one d.theta
  have hgv : d.get_value = 1/2 + (1/2) * squash d.theta := by
    rw [DecayedTransition.get_value, hl, hh]; ring
  refine ⟨by simp [LocalTrend.for_batch, h], ?_, ?_, ?_, ?_, ?_, ?_⟩
  · rcases ng with _ | k
    · exact absurd hng (by simp)
    · simp [LocalTrend.for_batch, h, List.replicate_succ]
  · rw [hgv]; linarith
  · rw [hgv]; linarith
  all_goals rw [matMul_two_by_one]; ring_nf

/-- The stored decay parameter used to evaluate the decay-bounds claim. -/
def dTest : DecayedTransition := { low := 1/2, high := 1, theta := 0 }

/-- The decaying LocalTrend built by the velocity test. -/
def ltDecayTest : LocalTrend := { id := "test", decay_velocity := some dTest }

theorem localtrend_decay_bounds_witness :
    ltDecayTest.decay_velocity = some dTest
    ∧ dTest.low = 1/2 ∧ dTest.high = 1 ∧ 0 < 2
    ∧ (1/2 < dTest.get_value ∧ dTest.get_value < 1)
    ∧ (ltDecayTest.for_batch 2 1).F 0
        = List.replicate 2 [[1, 1], [0, dTest.get_value]]
    ∧ matMul [[1, 1], [0, dTest.get_value]] [[0], [1]]
        = [[1], [dTest.get_value ^ 1]] :=
  ⟨rfl, rfl, rfl, by decide,
    ⟨(localtrend_decay_bounds ltDecayTest 2 1 dTest rfl rfl rfl (by decide)).2.2.1,
      (localtrend_decay_bounds ltDecayTest 2 1 dTest rfl rfl rfl (by decide)).2.2.2.1⟩,
    (localtrend_decay_bounds ltDecayTest 2 1 dTest rfl rfl rfl (by decide)).1,
    (localtrend_decay_bounds ltDecayTest 2 1 dTest rfl rfl rfl (by decide)).2.2.2.2.1⟩

end TorchKalman
